import Mathlib

namespace Pragyan

/-! Shallow embedding of the Pragyan front-end repository:
the AR camera scanner (ar-camera.js), the manual input handler,
the SPA page component (page.tsx) and the enhanced audio helper. -/

/-- JavaScript truthiness of an optional string: an absent field and the
empty string are both falsy; a non-empty string is its own truthy value. -/
def strTruthy : Option String → Option String
  | some s => if s = "" then none else some s
  | none => none

/-- JavaScript fallback chain such as a short-circuit with one default. -/
def jsOrS (a : Option String) (d : String) : String :=
  (strTruthy a).getD d

/-- JavaScript fallback chain over two optional strings and a default. -/
def jsOrSS (a b : Option String) (d : String) : String :=
  (strTruthy a).getD (jsOrS b d)

/-- JavaScript String.prototype.trim: strips whitespace from both ends. -/
def jsTrim (s : String) : String :=
  String.mk (((s.data.dropWhile Char.isWhitespace).reverse.dropWhile
    Char.isWhitespace).reverse)

/-- JavaScript short-circuit choice between two optional strings. -/
def jsOrOpt (a b : Option String) : Option String :=
  match strTruthy a with
  | some s => some s
  | none => strTruthy b

/-- The selection rectangle built by handleRegionSelection in ar-camera.js.
Field for field the object stored in this.selectedRegion at the second click. -/
structure Region where
  startX : Int
  startY : Int
  x : Int
  y : Int
  width : Int
  height : Int
deriving DecidableEq, Repr

/-- Phase of the two-click region-selection protocol: this.selectedRegion is
either null or holds the recorded start corner of the first click. -/
inductive SelPhase
  | noSel
  | started (startX startY : Int)
deriving DecidableEq, Repr

/-- One click handled by handleRegionSelection: the first click records the
start corner; the second click computes width and height from the delta,
takes the smaller coordinate of each pair as the origin, and produces the
rectangle that is passed to captureImage. -/
def handleRegionSelection (phase : SelPhase) (x y : Int) : SelPhase × Option Region :=
  match phase with
  | .noSel => (.started x y, none)
  | .started sx sy =>
    let w := x - sx
    let h := y - sy
    (.noSel, some { startX := sx, startY := sy,
                    width := |w|, height := |h|,
                    x := if w > 0 then sx else x,
                    y := if h > 0 then sy else y })

/-- Camera-stream state of the ARCameraScanner: the stream field of the
instance, the set of acquired streams whose tracks have not been stopped
(identified by acquisition order), and a counter producing fresh streams. -/
structure ScannerCam where
  stream : Option Nat
  live : List Nat
  nextId : Nat
deriving DecidableEq, Repr

/-- The scanner state created by the constructor: this.stream = null and no
device stream acquired. -/
def camInit : ScannerCam := { stream := none, live := [], nextId := 0 }

/-- startCamera in ar-camera.js: awaits getUserMedia and overwrites
this.stream with the fresh stream. No track of a previously held stream is
stopped anywhere in the function. -/
def startCamera (s : ScannerCam) : ScannerCam :=
  { stream := some s.nextId, live := s.live ++ [s.nextId], nextId := s.nextId + 1 }

/-- stopCamera in ar-camera.js: if a stream is held, stops every one of its
tracks and sets this.stream = null. -/
def stopCamera (s : ScannerCam) : ScannerCam :=
  match s.stream with
  | some i => { s with stream := none, live := s.live.erase i }
  | none => s

/-- The two camera-lifecycle operations of the scanner. -/
inductive ScanEvent
  | startCam
  | stopCam
deriving DecidableEq, Repr

/-- Dispatch one camera-lifecycle event. -/
def camStep (s : ScannerCam) : ScanEvent → ScannerCam
  | .startCam => startCamera s
  | .stopCam => stopCamera s

/-- Run a sequence of camera-lifecycle events. -/
def camRun (s : ScannerCam) (es : List ScanEvent) : ScannerCam :=
  es.foldl camStep s

/-- The button-visibility discipline of the scanner page: startCamera is only
reachable through a click on the start button, which is displayed only while
no stream is held. -/
def guardedFrom : ScannerCam → List ScanEvent → Bool
  | _, [] => true
  | s, ScanEvent.stopCam :: es => guardedFrom (camStep s .stopCam) es
  | s, ScanEvent.startCam :: es => s.stream == none && guardedFrom (camStep s .startCam) es

/-- The held stream is exactly the one live stream (or there is none). -/
def camInv (s : ScannerCam) : Prop :=
  s.live = s.stream.toList

/-- The two DOM operations of ar-camera.js touching the confirmation overlay:
createConfirmationOverlay removes the element found by getElementById (one
element, when present) and appends a fresh overlay; closeConfirmation removes
the element found by getElementById, when present.  The state is the number
of confirmation overlays in the document. -/
inductive OverlayOp
  | create
  | close
deriving DecidableEq, Repr

/-- Effect of one overlay operation on the number of overlays in the document
(natural subtraction models the no-op removal when none exists). -/
def overlayStep (n : Nat) : OverlayOp → Nat
  | .create => (n - 1) + 1
  | .close => n - 1

/-- Overlay count after a sequence of create/close operations, starting from
the freshly loaded page with no overlay. -/
def overlayRun (ops : List OverlayOp) : Nat :=
  ops.foldl overlayStep 0

theorem camInv_camRun (es : List ScanEvent) (s : ScannerCam)
    (hinv : camInv s) (hg : guardedFrom s es = true) : camInv (camRun s es) := by
  induction es generalizing s with
  | nil => simpa [camRun] using hinv
  | cons e es ih =>
    cases e with
    | startCam =>
      rw [guardedFrom, Bool.and_eq_true, beq_iff_eq] at hg
      obtain ⟨hnone, hg⟩ := hg
      refine ih (startCamera s) ?_ hg
      simp [camInv, startCamera, camInv.eq_def] at hinv ⊢
      simp [hnone] at hinv
      simp [hinv]
    | stopCam =>
      rw [guardedFrom] at hg
      refine ih (stopCamera s) ?_ hg
      unfold camInv at hinv ⊢
      cases h : s.stream with
      | none => simp [stopCamera, h, hinv, h ▸ hinv]
      | some i =>
        rw [h] at hinv
        simp [stopCamera, h, hinv]

theorem overlayRun_le_one_aux (ops : List OverlayOp) (n : Nat) (h : n ≤ 1) :
    ops.foldl overlayStep n ≤ 1 := by
  induction ops generalizing n with
  | nil => simpa using h
  | cons o ops ih =>
    cases o with
    | create => exact ih _ (by simp [overlayStep]; omega)
    | close => exact ih _ (by simp [overlayStep]; omega)

/-- One AI-detected candidate of the confirmation data: only its
suggested_input field is consumed by selectOption. -/
structure Candidate where
  suggested_input : String
deriving DecidableEq, Repr

/-- The detected_content part of the backend confirmation data consumed by
selectOption: the primary concept plus the question and topic lists. -/
structure DetectedContent where
  primary_concept : Candidate
  questions : List Candidate
  topics : List Candidate
deriving DecidableEq, Repr

/-- Identity of a clickable candidate card in the confirmation overlay:
the single concept card, or a question/topic card carrying its data-index. -/
inductive Card
  | concept
  | question (i : Nat)
  | topic (i : Nat)
deriving DecidableEq, Repr

/-- The suggested input text selectOption reads for a card: the indexed
entry of the matching list, or the primary concept's suggestion.  An
out-of-range index yields none (the JS code would fault there; the overlay
only creates cards with in-range indices). -/
def suggestedInput (dc : DetectedContent) : Card → Option String
  | .concept => some dc.primary_concept.suggested_input
  | .question i => (dc.questions.get? i).map Candidate.suggested_input
  | .topic i => (dc.topics.get? i).map Candidate.suggested_input

/-- State of the confirmation overlay touched by selectOption: which cards
carry the selected class, and the value of the editable input. -/
structure ConfirmState where
  selectedCards : List Card
  inputValue : String
deriving DecidableEq, Repr

/-- selectOption in ar-camera.js: removes the selected class from every
question, topic and concept card, marks the clicked card selected, and
overwrites the editable input with that card's suggested_input. -/
def selectOption (dc : DetectedContent) (card : Card) (_s : ConfirmState) :
    Option ConfirmState :=
  (suggestedInput dc card).map fun t => { selectedCards := [card], inputValue := t }

/-- A sequence of card clicks in the confirmation overlay. -/
def runClicks (dc : DetectedContent) : ConfirmState → List Card → Option ConfirmState
  | s, [] => some s
  | s, c :: cs =>
    match selectOption dc c s with
    | some s1 => runClicks dc s1 cs
    | none => none

/-- One rendered fragment of the video area: a primary playable video
element, a plain link, or the fallback warning paragraph. -/
inductive VideoBlock
  | player (src : String) (caption : String)
  | link (href : String) (label : String)
  | warning (msg : String)
deriving DecidableEq, Repr

/-- The video_urls object of a generation response; every field may be
absent. original, narrated and code are read by the manual handler, the
SPA additionally reads cloud_original and script. -/
structure VideoUrls where
  original : Option String := none
  narrated : Option String := none
  code : Option String := none
  cloud_original : Option String := none
  script : Option String := none
deriving DecidableEq, Repr

/-- The narrated-video branch of displayResults: when truthy, a primary
player plus an open-in-new-tab link. -/
def narratedBlocks : Option String → List VideoBlock
  | some n => [VideoBlock.player n "Narrated Version", VideoBlock.link n "Open in New Tab"]
  | none => []

/-- The original-video branch of displayResults: a primary player when no
narrated video exists, otherwise a plain alternative link. -/
def originalBlocks : Option String → Option String → List VideoBlock
  | some o, none => [VideoBlock.player o "Generated Video", VideoBlock.link o "Open in New Tab"]
  | some o, some _ => [VideoBlock.link o "Original Video (No Audio)"]
  | none, _ => []

/-- The source-code link branch of displayResults. -/
def codeBlocks : Option String → List VideoBlock
  | some cu => [VideoBlock.link cu "Source Code"]
  | none => []

/-- The video part of ManualInputHandler.displayResults: a narrated video,
when truthy, becomes the primary player (with an open-in-new-tab link);
the original becomes the primary player only when no narrated video exists,
and otherwise is offered as a plain alternative link; a code URL adds a
link; if nothing was produced, a warning paragraph is shown. -/
def displayResultsVideo (urls : VideoUrls) : List VideoBlock :=
  let blocks :=
    narratedBlocks (strTruthy urls.narrated) ++
    originalBlocks (strTruthy urls.original) (strTruthy urls.narrated) ++
    codeBlocks (strTruthy urls.code)
  if blocks = [] then [VideoBlock.warning "Video generation completed but URLs not available"]
  else blocks

/-- The sources of the primary playable video elements in a block list. -/
def players : List VideoBlock → List String
  | [] => []
  | VideoBlock.player src _ :: bs => src :: players bs
  | _ :: bs => players bs

/-- The source assigned to the ar-video element by showARResults:
the narrated URL when truthy, otherwise the original when truthy. -/
def showARResultsVideoSrc (video_urls : Option VideoUrls) : Option String :=
  jsOrOpt (video_urls.bind VideoUrls.narrated) (video_urls.bind VideoUrls.original)

/-- One HTTP request issued by the client, identified by endpoint and the
payload fields the client puts in the body. -/
inductive Request
  | nlpTextToVideo (text language complexity : String) (include_narration : Bool)
  | nlpVoiceToVideo (audio language : String)
  | analyzeEducationalImage (image : String)
  | processCameraCapture (image_data : String) (selected_region : Option Region)
  | generateContent (input_text complexity language : String)
  | detectInputType (input_text : String)
deriving DecidableEq, Repr

/-- Visibility of the four sections of the manual-input page that
ManualInputHandler toggles. -/
structure ManualState where
  formShown : Bool
  detectionShown : Bool
  resultsShown : Bool
  loadingShown : Bool
deriving DecidableEq, Repr

/-- The freshly loaded manual page: the form is visible, nothing else. -/
def manualInit : ManualState :=
  { formShown := true, detectionShown := false, resultsShown := false, loadingShown := false }

/-- showLoading in the manual handler: hides form, detection and results,
shows the loading section. -/
def showLoading (s : ManualState) : ManualState :=
  { s with formShown := false, detectionShown := false, resultsShown := false,
           loadingShown := true }

/-- hideLoading in the manual handler: hides the loading section only. -/
def hideLoading (s : ManualState) : ManualState :=
  { s with loadingShown := false }

/-- displayResults shows the results section (the form stays hidden). -/
def displayResults (s : ManualState) : ManualState :=
  { s with resultsShown := true }

/-- The generate-content response fields the manual handler reads. -/
structure GenerateContentResponse where
  success : Bool
  error : Option String := none
  video_urls : Option VideoUrls := none
deriving DecidableEq, Repr

/-- ManualInputHandler.handleSubmit: shows the loading section (hiding the
form), issues the generation call, and on success hides loading and shows
results; a thrown network error or a success=false body lands in the catch
block, which hides loading and alerts - nothing re-shows the form.
Returns the final section visibility and the alerts raised. -/
def handleSubmit (s : ManualState) (net : Except String GenerateContentResponse) :
    ManualState × List String :=
  let s1 := showLoading s
  match net with
  | .ok r =>
    if r.success then (displayResults (hideLoading s1), [])
    else (hideLoading s1, ["Generation failed: " ++ jsOrS r.error "Generation failed"])
  | .error msg => (hideLoading s1, ["Generation failed: " ++ msg])

/-- A failing outcome of the generation call: network/transport error or a
body with success=false. -/
def netFailsG : Except String GenerateContentResponse → Prop
  | .error _ => True
  | .ok r => r.success = false

/-- Modelled from the spec: the "actionable pre-action state" of the manual
page - the spec's Idle state in which the user can restart the action -
requires the input form to be visible again. -/
def manualActionableSpec (m : ManualState) : Prop :=
  m.formShown = true

/-- The camera/upload analysis response fields ar-camera.js reads on the
error path (message) and the success discriminator. -/
structure CaptureResponse where
  success : Bool
  message : Option String := none
deriving DecidableEq, Repr

/-- UI state of the AR scanner around a capture: camera stream state, the
loading overlay, the number of confirmation overlays, and whether an
analysis result is stored. -/
structure ARUi where
  cam : ScannerCam
  arLoadingShown : Bool
  overlays : Nat
  analysisStored : Bool
deriving DecidableEq, Repr

/-- processCameraCapture in ar-camera.js: posts the form data once to the
camera-capture endpoint; on success stores the analysis and shows the
confirmation overlay, then hides loading; on a non-ok response, a network
error, or success=false it hides loading and alerts. -/
def processCameraCapture (ui : ARUi) (image_data : String) (region : Option Region)
    (net : Except String CaptureResponse) : ARUi × List String × List Request :=
  let req := Request.processCameraCapture image_data region
  match net with
  | .ok r =>
    if r.success then
      ({ ui with arLoadingShown := false,
                 overlays := overlayStep ui.overlays .create,
                 analysisStored := true }, [], [req])
    else
      ({ ui with arLoadingShown := false },
       ["Camera capture failed: " ++ jsOrS r.message "Camera capture analysis failed"], [req])
  | .error msg =>
    ({ ui with arLoadingShown := false }, ["Camera capture failed: " ++ msg], [req])

/-- captureImage in ar-camera.js: shows the AR loading overlay, rasterizes
the frame into the image payload, and hands one form submission to
processCameraCapture. -/
def captureImage (ui : ARUi) (image_data : String) (region : Option Region)
    (net : Except String CaptureResponse) : ARUi × List String × List Request :=
  processCameraCapture { ui with arLoadingShown := true } image_data region net

/-- processImage in ar-camera.js (the method reached by the active
handleImageUpload definition): one fetch to the endpoint selected by
isCamera, with the same success/failure handling as the capture path. -/
def processImage (ui : ARUi) (isCamera : Bool) (payload : String)
    (net : Except String CaptureResponse) : ARUi × List String × List Request :=
  let req := if isCamera then Request.processCameraCapture payload none
             else Request.analyzeEducationalImage payload
  match net with
  | .ok r =>
    if r.success then
      ({ ui with arLoadingShown := false,
                 overlays := overlayStep ui.overlays .create,
                 analysisStored := true }, [], [req])
    else
      ({ ui with arLoadingShown := false },
       ["Image analysis failed: " ++ jsOrS r.message "Vision AI analysis failed"], [req])
  | .error msg =>
    ({ ui with arLoadingShown := false }, ["Image analysis failed: " ++ msg], [req])

/-- handleImageUpload in ar-camera.js (the later, active definition): a
missing file is a no-op; otherwise the file goes once through processImage
in upload mode. -/
def handleImageUpload (ui : ARUi) (file : Option String)
    (net : Except String CaptureResponse) : ARUi × List String × List Request :=
  match file with
  | none => (ui, [], [])
  | some f => processImage { ui with arLoadingShown := true } false f net

/-- A failing outcome of a capture/analysis call. -/
def netFailsC : Except String CaptureResponse → Prop
  | .error _ => True
  | .ok r => r.success = false

/-- The three input modes of the SPA page component. -/
inductive InputMode
  | text
  | voice
  | image
deriving DecidableEq, Repr

/-- The NLP generation response fields the SPA reads. -/
structure NlpResponse where
  success : Bool
  video_urls : Option VideoUrls := none
  error_type : Option String := none
  error_message : Option String := none
  error : Option String := none
  suggestions : Option (List String) := none
deriving DecidableEq, Repr

/-- The options object of the image-analysis response. -/
structure ImageOptions where
  topics : List String
  questions : List String := []
  text_content : String := ""
deriving DecidableEq, Repr

/-- The image-analysis response fields the SPA reads. -/
structure ImageAnalysisResponse where
  success : Bool
  options : Option ImageOptions := none
  error : Option String := none
deriving DecidableEq, Repr

/-- The useState fields of the PragyanAI page component, with their initial
values as defaults. recordedAudio and selectedImage hold the base64/content
payload of the blob or file when present. -/
structure PageState where
  inputText : String := ""
  selectedLanguage : String := "auto"
  includeNarration : Bool := true
  complexity : String := "intermediate"
  inputMode : InputMode := InputMode.text
  isRecording : Bool := false
  recordedAudio : Option String := none
  isGenerating : Bool := false
  generationProgress : Nat := 0
  result : Option NlpResponse := none
  selectedImage : Option String := none
  imageAnalysis : Option ImageAnalysisResponse := none
deriving DecidableEq, Repr

/-- generateVideoFromText in page.tsx: a blank or whitespace-only input
returns before any state change or request; otherwise exactly one POST to
the text-to-video endpoint carries text, language, complexity and
include_narration, and the response (or network error) is folded into the
result state with isGenerating cleared. -/
def generateVideoFromText (s : PageState) (net : Except String NlpResponse) :
    PageState × List Request :=
  if jsTrim s.inputText = "" then (s, [])
  else
    let req := Request.nlpTextToVideo s.inputText s.selectedLanguage s.complexity
      s.includeNarration
    match net with
    | .ok data =>
      if data.success then
        ({ s with isGenerating := false, generationProgress := 100,
                  result := some data }, [req])
      else
        let errRes : NlpResponse :=
          { success := false,
            error_type := some (jsOrS data.error_type "Generation Error"),
            error_message := some (jsOrSS data.error_message data.error
              "Text generation failed"),
            suggestions := some (data.suggestions.getD
              ["Please try rephrasing your request", "Check if the topic is educational"]) }
        ({ s with isGenerating := false, generationProgress := 100,
                  result := some errRes }, [req])
    | .error msg =>
      let errRes : NlpResponse :=
        { success := false,
          error_type := some "Network Error",
          error_message := some msg,
          suggestions := some ["Check your internet connection",
                               "Verify the backend is running"] }
      ({ s with isGenerating := false, generationProgress := 10,
                result := some errRes }, [req])

/-- generateVideoFromVoice in page.tsx: without recorded audio it returns
before any state change or request; otherwise one POST carries the base64
audio and the language.  A rejected fetch inside the reader callback is
not caught by the surrounding try/catch, leaving the generating state set. -/
def generateVideoFromVoice (s : PageState) (net : Except String NlpResponse) :
    PageState × List Request :=
  match s.recordedAudio with
  | none => (s, [])
  | some audio =>
    let req := Request.nlpVoiceToVideo audio s.selectedLanguage
    match net with
    | .ok data =>
      if data.success then
        ({ s with isGenerating := false, generationProgress := 100,
                  result := some data }, [req])
      else
        let errRes : NlpResponse :=
          { success := false,
            error_type := some (jsOrS data.error_type "Voice Processing Error"),
            error_message := some (jsOrSS data.error_message data.error
              "Voice generation failed"),
            suggestions := some (data.suggestions.getD
              ["Try speaking more clearly", "Check microphone quality"]) }
        ({ s with isGenerating := false, generationProgress := 100,
                  result := some errRes }, [req])
    | .error _ =>
      ({ s with isGenerating := true, generationProgress := 30, result := none }, [req])

/-- generateVideoFromAnalyzedImage in page.tsx: one POST to the
text-to-video endpoint built from the first detected topic. -/
def generateVideoFromAnalyzedImage (s : PageState) (topic : String)
    (net : Except String NlpResponse) : PageState × List Request :=
  let req := Request.nlpTextToVideo
    ("Explain " ++ topic ++ " based on this educational content")
    s.selectedLanguage s.complexity s.includeNarration
  match net with
  | .ok data =>
    if data.success then
      ({ s with isGenerating := false, generationProgress := 100,
                result := some data }, [req])
    else
      let errRes : NlpResponse :=
        { success := false,
          error_type := some "Video Generation Error",
          error_message := some (jsOrS data.error_message
            "Failed to generate video from analyzed content"),
          suggestions := some (data.suggestions.getD
            ["Try a different image", "Simplify the content"]) }
      ({ s with isGenerating := false, generationProgress := 100,
                result := some errRes }, [req])
  | .error msg =>
    let errRes : NlpResponse :=
      { success := false,
        error_type := some "Generation Error",
        error_message := some msg,
        suggestions := some ["Try again with a different approach",
                             "Check the backend connection"] }
    ({ s with isGenerating := false, result := some errRes }, [req])

/-- analyzeImage in page.tsx: without a selected image it returns before any
state change or request; otherwise one POST carries the base64 image, and on
a successful analysis with at least one topic a second, distinct POST
generates the video from the first topic.  A rejected analysis fetch inside
the reader callback is not caught, leaving the generating state set. -/
def analyzeImage (s : PageState) (net1 : Except String ImageAnalysisResponse)
    (net2 : Except String NlpResponse) : PageState × List Request :=
  match s.selectedImage with
  | none => (s, [])
  | some img =>
    let req1 := Request.analyzeEducationalImage img
    match net1 with
    | .ok data =>
      let s1 := { s with isGenerating := true, generationProgress := 70,
                         imageAnalysis := some data }
      let topics := (data.options.map ImageOptions.topics).getD []
      if data.success ∧ topics ≠ [] then
        let out := generateVideoFromAnalyzedImage s1 (topics.headD "") net2
        (out.1, req1 :: out.2)
      else
        let errRes : NlpResponse :=
          { success := false,
            error_type := some "Image Analysis Error",
            error_message := some (jsOrS data.error "Could not analyze the image content"),
            suggestions := some ["Try uploading a clearer image",
                                 "Ensure the image contains educational content"] }
        ({ s1 with isGenerating := false, result := some errRes }, [req1])
    | .error _ =>
      ({ s with isGenerating := true, generationProgress := 50,
                imageAnalysis := none }, [req1])

/-- handleGenerate in page.tsx: dispatches the generate click to the
function of the active input mode. -/
def handleGenerate (s : PageState) (netText : Except String NlpResponse)
    (netVoice : Except String NlpResponse)
    (netImg : Except String ImageAnalysisResponse)
    (netImgGen : Except String NlpResponse) : PageState × List Request :=
  match s.inputMode with
  | .text => generateVideoFromText s netText
  | .voice => generateVideoFromVoice s netVoice
  | .image => analyzeImage s netImg netImgGen

/-- What the SPA success section displays from the video URLs: the player
and the download link source only video_urls.cloud_original, the script
link only video_urls.script. -/
structure SuccessView where
  playerSrc : Option String
  downloadHref : Option String
  scriptHref : Option String
deriving DecidableEq, Repr

/-- What the SPA error section displays. -/
structure ErrorView where
  title : String
  message : Option String
  suggestions : List String
deriving DecidableEq, Repr

/-- The four conditional sections of the SPA results panel. -/
structure PageRender where
  loadingShown : Bool
  successView : Option SuccessView
  errorView : Option ErrorView
  emptyShown : Bool
deriving DecidableEq, Repr

/-- The success section of the SPA: the video element renders only when
cloud_original is truthy and sources it. -/
def renderSuccess (r : NlpResponse) : SuccessView :=
  let cloud := strTruthy (r.video_urls.bind VideoUrls.cloud_original)
  { playerSrc := cloud,
    downloadHref := cloud,
    scriptHref := strTruthy (r.video_urls.bind VideoUrls.script) }

/-- The SPA results panel: loading while generating, a success view for a
successful result, an error view for a failed result, the empty hint
otherwise. -/
def renderPage (s : PageState) : PageRender :=
  { loadingShown := s.isGenerating,
    successView := match s.result with
      | some r => if r.success then some (renderSuccess r) else none
      | none => none,
    errorView := match s.result with
      | some r =>
        if r.success then none
        else some { title := jsOrS r.error_type "Generation Failed",
                    message := match strTruthy r.error_message with
                      | some m => some m
                      | none => r.error,
                    suggestions := r.suggestions.getD [] }
      | none => none,
    emptyShown := !s.isGenerating && s.result.isNone }

/-- One recorded data chunk delivered to the media recorder handler. -/
structure Chunk where
  id : Nat
  size : Nat
deriving DecidableEq, Repr

/-- State of the EnhancedAudioInput helper relevant to recording: whether a
recorder exists and is recording, the chunk accumulator, whether a
completion callback is registered, how many onstop events are pending, and
the log of blobs the callback has been invoked with. -/
structure AudioState where
  hasRecorder : Bool
  isRecording : Bool
  audioChunks : List Chunk
  callbackRegistered : Bool
  pendingStops : Nat
  callbackLog : List (List Chunk)
deriving DecidableEq, Repr

/-- Events of the enhanced audio helper: startRecording creates a fresh
recorder and resets the chunk list; a dataavailable event appends a
non-empty chunk; stopRecording stops the recorder, queueing its onstop;
the queued onstop fires and invokes the registered callback with a blob
built from the chunks accumulated at that moment. -/
inductive AudioEvent
  | startRec
  | dataAvail (c : Chunk)
  | stopRec
  | fireOnStop
deriving DecidableEq, Repr

/-- One step of the enhanced audio helper. -/
def audioStep (s : AudioState) : AudioEvent → AudioState
  | .startRec =>
    { s with hasRecorder := true, isRecording := true, audioChunks := [] }
  | .dataAvail c =>
    if s.hasRecorder = true ∧ 0 < c.size then
      { s with audioChunks := s.audioChunks ++ [c] }
    else s
  | .stopRec =>
    if s.hasRecorder = true ∧ s.isRecording = true then
      { s with isRecording := false, pendingStops := s.pendingStops + 1 }
    else s
  | .fireOnStop =>
    if 0 < s.pendingStops then
      { s with pendingStops := s.pendingStops - 1,
               callbackLog := if s.callbackRegistered then s.callbackLog ++ [s.audioChunks]
                              else s.callbackLog }
    else s

/-- Run a sequence of audio events. -/
def audioRun (s : AudioState) (es : List AudioEvent) : AudioState :=
  es.foldl audioStep s

theorem players_append (a b : List VideoBlock) :
    players (a ++ b) = players a ++ players b := by
  induction a with
  | nil => simp [players]
  | cons x xs ih => cases x <;> simp [players, ih]

/-- Claim C2: for every pair of recorded region-selection points, the
rectangle passed to capture has width and height the absolute coordinate
deltas and origin the coordinatewise minimum; in particular the points
(50,50) then (30,80) yield the rectangle x=30, y=50, width=20, height=30. -/
theorem C2_region_rectangle :
    (∀ x1 y1 x2 y2 : Int,
        (handleRegionSelection (handleRegionSelection SelPhase.noSel x1 y1).1 x2 y2).2 =
          some { startX := x1, startY := y1, x := min x1 x2, y := min y1 y2,
                 width := |x2 - x1|, height := |y2 - y1| }) ∧
    (handleRegionSelection (handleRegionSelection SelPhase.noSel 50 50).1 30 80).2 =
      some { startX := 50, startY := 50, x := 30, y := 50, width := 20, height := 30 } := by
  constructor
  · intro x1 y1 x2 y2
    simp only [handleRegionSelection, Option.some.injEq, Region.mk.injEq, true_and,
      and_true]
    refine ⟨?_, ?_⟩ <;>
      · rw [min_def]
        split <;> split <;> omega
  · decide

/-- Claim C4, counterexample: startCamera releases nothing.  Invoking
startCamera while the scanner already holds stream 0 leaves two live device
streams, with the previously held stream 0 still unreleased. -/
theorem C4_counterexample :
    (startCamera camInit).stream = some 0 ∧
    (startCamera (startCamera camInit)).live = [0, 1] ∧
    (startCamera (startCamera camInit)).live.length = 2 := by
  decide

/-- Claim C4, amended: startCamera overwrites the stream handle without
stopping the previous tracks, so only stopCamera releases a stream.  Along
every event sequence in which startCamera runs only while no stream is held
(the button-visibility discipline of the page), the held stream is the only
live one, at most one stream is live, and stopCamera releases every track. -/
theorem C4_amended_stream_invariant (es : List ScanEvent)
    (hg : guardedFrom camInit es = true) :
    camInv (camRun camInit es) ∧
    (camRun camInit es).live.length ≤ 1 ∧
    (stopCamera (camRun camInit es)).live = [] := by
  have hinv : camInv (camRun camInit es) :=
    camInv_camRun es camInit (by simp [camInv, camInit]) hg
  refine ⟨hinv, ?_, ?_⟩
  · unfold camInv at hinv
    rw [hinv]
    cases (camRun camInit es).stream <;> simp
  · unfold camInv at hinv
    cases h : (camRun camInit es).stream with
    | none => simp [stopCamera, h, h ▸ hinv]
    | some i =>
      rw [h] at hinv
      simp [stopCamera, h, hinv]

/-- Claim C4, witness: a start-stop-start sequence obeys the discipline and
keeps the invariant. -/
theorem C4_amended_witness :
    guardedFrom camInit [ScanEvent.startCam, ScanEvent.stopCam, ScanEvent.startCam] = true ∧
    camInv (camRun camInit [ScanEvent.startCam, ScanEvent.stopCam, ScanEvent.startCam]) ∧
    (camRun camInit [ScanEvent.startCam, ScanEvent.stopCam, ScanEvent.startCam]).live.length ≤ 1 ∧
    (stopCamera (camRun camInit [ScanEvent.startCam, ScanEvent.stopCam, ScanEvent.startCam])).live = [] :=
  ⟨by decide, C4_amended_stream_invariant _ (by decide)⟩

/-- Claim C10: at most one confirmation overlay exists in the document after
any sequence of overlay operations; on any reachable count, creating leaves
exactly one overlay and closing leaves none. -/
theorem C10_overlay_at_most_one (ops : List OverlayOp) :
    overlayRun ops ≤ 1 ∧
    overlayStep (overlayRun ops) OverlayOp.create = 1 ∧
    overlayStep (overlayRun ops) OverlayOp.close = 0 := by
  have h : overlayRun ops ≤ 1 := overlayRun_le_one_aux ops 0 (by omega)
  refine ⟨h, ?_, ?_⟩ <;> · simp [overlayStep]; omega

/-- Claim C6: in the confirmation view, every click on a candidate card
replaces the editable input with that candidate's suggested_input, and
after any nonempty sequence of clicks exactly one card carries the
selected marking, namely the last one clicked. -/
theorem C6_candidate_selection (dc : DetectedContent) (s : ConfirmState)
    (clicks : List Card) (c : Card)
    (hlast : clicks.getLast? = some c)
    (hvalid : ∀ x ∈ clicks, (suggestedInput dc x).isSome = true) :
    ∃ t, suggestedInput dc c = some t ∧
      runClicks dc s clicks = some { selectedCards := [c], inputValue := t } := by
  induction clicks generalizing s with
  | nil => simp at hlast
  | cons a as ih =>
    have ha : (suggestedInput dc a).isSome = true := hvalid a (by simp)
    obtain ⟨ta, hta⟩ := Option.isSome_iff_exists.mp ha
    cases as with
    | nil =>
      have hac : a = c := by simpa using hlast
      subst hac
      exact ⟨ta, hta, by simp [runClicks, selectOption, hta]⟩
    | cons b bs =>
      have hlast2 : (b :: bs).getLast? = some c := by
        rwa [List.getLast?_cons_cons] at hlast
      obtain ⟨t, ht, hrun⟩ := ih { selectedCards := [a], inputValue := ta } hlast2
        (fun x hx => hvalid x (by simp [hx]))
      have hsel : selectOption dc a s = some { selectedCards := [a], inputValue := ta } := by
        simp [selectOption, hta]
      refine ⟨t, ht, ?_⟩
      rw [runClicks, hsel]
      exact hrun

/-- Claim C6, witness: with one detected question, clicking the concept card
and then the question card leaves only the question card selected and the
input equal to its suggested text. -/
theorem C6_witness :
    ([Card.concept, Card.question 0].getLast? = some (Card.question 0)) ∧
    (∀ x ∈ [Card.concept, Card.question 0],
      (suggestedInput { primary_concept := { suggested_input := "Explain gravity" },
                        questions := [{ suggested_input := "Solve the equation" }],
                        topics := [] } x).isSome = true) ∧
    ∃ t, suggestedInput { primary_concept := { suggested_input := "Explain gravity" },
                          questions := [{ suggested_input := "Solve the equation" }],
                          topics := [] } (Card.question 0) = some t ∧
      runClicks { primary_concept := { suggested_input := "Explain gravity" },
                  questions := [{ suggested_input := "Solve the equation" }],
                  topics := [] }
          { selectedCards := [], inputValue := "first" }
          [Card.concept, Card.question 0] =
        some { selectedCards := [Card.question 0], inputValue := t } :=
  ⟨by decide, by decide, C6_candidate_selection _ _ _ _ (by decide) (by decide)⟩

/-- Claim C7: when a successful generation result holds both a narrated and
an original video URL, the rendered primary player uses the narrated URL
and the original is offered only as an alternative link; when only the
original URL is present, the original is the primary player.  The AR
results overlay picks its single video source by the same preference. -/
theorem C7_video_preference (urls : VideoUrls) :
    (∀ n o, strTruthy urls.narrated = some n → strTruthy urls.original = some o →
        players (displayResultsVideo urls) = [n] ∧
        VideoBlock.link o "Original Video (No Audio)" ∈ displayResultsVideo urls) ∧
    (∀ o, strTruthy urls.narrated = none → strTruthy urls.original = some o →
        players (displayResultsVideo urls) = [o]) ∧
    (∀ n, strTruthy urls.narrated = some n → showARResultsVideoSrc (some urls) = some n) ∧
    (∀ o, strTruthy urls.narrated = none → strTruthy urls.original = some o →
        showARResultsVideoSrc (some urls) = some o) := by
  refine ⟨?_, ?_, ?_, ?_⟩
  · intro n o hn ho
    have hd : displayResultsVideo urls =
        [VideoBlock.player n "Narrated Version", VideoBlock.link n "Open in New Tab",
         VideoBlock.link o "Original Video (No Audio)"] ++ codeBlocks (strTruthy urls.code) := by
      simp [displayResultsVideo, hn, ho, narratedBlocks, originalBlocks]
    rw [hd]
    constructor
    · rw [players_append]
      cases h : strTruthy urls.code <;> simp [players, codeBlocks]
    · simp
  · intro o hn ho
    have hd : displayResultsVideo urls =
        [VideoBlock.player o "Generated Video", VideoBlock.link o "Open in New Tab"] ++
          codeBlocks (strTruthy urls.code) := by
      simp [displayResultsVideo, hn, ho, narratedBlocks, originalBlocks]
    rw [hd, players_append]
    cases h : strTruthy urls.code <;> simp [players, codeBlocks]
  · intro n hn
    simp [showARResultsVideoSrc, jsOrOpt, Option.bind, hn]
  · intro o hn ho
    simp [showARResultsVideoSrc, jsOrOpt, Option.bind, hn, ho]

/-- Claim C7, witness: with narrated and original both present the narrated
URL is the only primary player and the original appears as the alternative
link; with only the original present it is the primary player. -/
theorem C7_witness :
    players (displayResultsVideo { original := some "orig.mp4", narrated := some "narr.mp4" }) =
      ["narr.mp4"] ∧
    VideoBlock.link "orig.mp4" "Original Video (No Audio)" ∈
      displayResultsVideo { original := some "orig.mp4", narrated := some "narr.mp4" } ∧
    players (displayResultsVideo { original := some "orig.mp4" }) = ["orig.mp4"] ∧
    showARResultsVideoSrc (some { original := some "orig.mp4", narrated := some "narr.mp4" }) =
      some "narr.mp4" ∧
    showARResultsVideoSrc (some { original := some "orig.mp4" }) = some "orig.mp4" := by
  refine ⟨?_, ?_, ?_, ?_, ?_⟩
  · exact ((C7_video_preference _).1 "narr.mp4" "orig.mp4" (by decide) (by decide)).1
  · exact ((C7_video_preference _).1 "narr.mp4" "orig.mp4" (by decide) (by decide)).2
  · exact (C7_video_preference _).2.1 "orig.mp4" (by decide) (by decide)
  · exact (C7_video_preference _).2.2.1 "narr.mp4" (by decide)
  · exact (C7_video_preference _).2.2.2 "orig.mp4" (by decide) (by decide)

theorem generateVideoFromAnalyzedImage_requests (s : PageState) (topic : String)
    (net2 : Except String NlpResponse) :
    (generateVideoFromAnalyzedImage s topic net2).2 =
      [Request.nlpTextToVideo ("Explain " ++ topic ++ " based on this educational content")
        s.selectedLanguage s.complexity s.includeNarration] := by
  cases net2 with
  | ok d =>
    by_cases hd : d.success = true <;> simp [generateVideoFromAnalyzedImage, hd]
  | error m => simp [generateVideoFromAnalyzedImage]

/-- Claim C1, counterexample: submitting "Explain photosynthesis" with
language auto and complexity intermediate does POST the expected body, but
on the response success with video_urls.original = "a.mp4" the SPA success
section renders with no video player at all - the player sources only
video_urls.cloud_original - so no player sourcing "a.mp4" exists. -/
theorem C1_counterexample :
    (generateVideoFromText { inputText := "Explain photosynthesis" }
        (.ok { success := true, video_urls := some { original := some "a.mp4" } })).2 =
      [Request.nlpTextToVideo "Explain photosynthesis" "auto" "intermediate" true] ∧
    (renderPage (generateVideoFromText { inputText := "Explain photosynthesis" }
        (.ok { success := true, video_urls := some { original := some "a.mp4" } })).1).successView =
      some { playerSrc := none, downloadHref := none, scriptHref := none } ∧
    ({ playerSrc := none, downloadHref := none, scriptHref := none } : SuccessView).playerSrc ≠
      some "a.mp4" := by
  refine ⟨?_, ?_, ?_⟩ <;> decide

/-- Claim C1, amended: submitting "Explain photosynthesis" with language
auto and complexity intermediate issues exactly one POST to the
text-to-video endpoint carrying those values plus the include_narration
flag; on the response success with video_urls.original = "a.mp4" the
success section renders with no video player and no download or script
link (the SPA sources the player and download link only from
video_urls.cloud_original), and no narrated-alternative link exists. -/
theorem C1_amended_post_and_render (s : PageState) (resp : NlpResponse)
    (htext : s.inputText = "Explain photosynthesis")
    (hlang : s.selectedLanguage = "auto")
    (hcomp : s.complexity = "intermediate")
    (hsucc : resp.success = true)
    (hurls : resp.video_urls = some { original := some "a.mp4" }) :
    (generateVideoFromText s (.ok resp)).2 =
      [Request.nlpTextToVideo "Explain photosynthesis" "auto" "intermediate"
        s.includeNarration] ∧
    (renderPage (generateVideoFromText s (.ok resp)).1).successView =
      some { playerSrc := none, downloadHref := none, scriptHref := none } := by
  have hne : ¬ jsTrim "Explain photosynthesis" = "" := by decide
  constructor
  · simp [generateVideoFromText, hne, htext, hlang, hcomp, hsucc]
  · simp [generateVideoFromText, hne, htext, renderPage, renderSuccess, hsucc, hurls,
      strTruthy]

/-- Claim C1, witness: the amended statement at the concrete scenario. -/
theorem C1_amended_witness :
    (generateVideoFromText ({ inputText := "Explain photosynthesis" } : PageState)
        (.ok { success := true, video_urls := some { original := some "a.mp4" } })).2 =
      [Request.nlpTextToVideo "Explain photosynthesis" "auto" "intermediate" true] ∧
    (renderPage (generateVideoFromText ({ inputText := "Explain photosynthesis" } : PageState)
        (.ok { success := true, video_urls := some { original := some "a.mp4" } })).1).successView =
      some { playerSrc := none, downloadHref := none, scriptHref := none } :=
  C1_amended_post_and_render _ _ rfl rfl rfl rfl rfl

/-- Claim C3, counterexample: a network failure of the manual submit
surfaces an alert and hides the loading section, but every section of the
manual page - the form included - is left invisible, so the UI is not back
in the actionable pre-action state it started from. -/
theorem C3_counterexample :
    (handleSubmit manualInit (.error "Network down")).1 =
      { formShown := false, detectionShown := false, resultsShown := false,
        loadingShown := false } ∧
    (handleSubmit manualInit (.error "Network down")).2 =
      ["Generation failed: Network down"] ∧
    manualActionableSpec manualInit ∧
    ¬ manualActionableSpec (handleSubmit manualInit (.error "Network down")).1 := by
  refine ⟨by decide, by decide, rfl, ?_⟩
  show ¬ (handleSubmit manualInit (.error "Network down")).1.formShown = true
  decide

/-- Claim C3, amended: every failure path (network error, non-2xx response,
or success=false body) surfaces the error in an alert and hides the
loading indicator; the camera scanner is left in its pre-capture state
(stream, overlays and stored analysis untouched), but the manual input
handler leaves its form hidden, so the manual page is not returned to an
actionable pre-action state and the action can only be restarted by
reloading. -/
theorem C3_amended_failure_paths :
    (∀ ui image_data region net, netFailsC net →
        (processCameraCapture ui image_data region net).2.1 ≠ [] ∧
        (processCameraCapture ui image_data region net).1.arLoadingShown = false ∧
        (processCameraCapture ui image_data region net).1.cam = ui.cam ∧
        (processCameraCapture ui image_data region net).1.overlays = ui.overlays ∧
        (processCameraCapture ui image_data region net).1.analysisStored =
          ui.analysisStored) ∧
    (∀ s net, netFailsG net →
        (handleSubmit s net).2 ≠ [] ∧
        (handleSubmit s net).1.loadingShown = false ∧
        (handleSubmit s net).1.formShown = false ∧
        ¬ manualActionableSpec (handleSubmit s net).1) := by
  constructor
  · intro ui image_data region net hf
    cases net with
    | error msg => simp [processCameraCapture]
    | ok r =>
      have hr : r.success = false := hf
      simp [processCameraCapture, hr]
  · intro s net hf
    cases net with
    | error msg =>
      simp [handleSubmit, showLoading, hideLoading, manualActionableSpec]
    | ok r =>
      have hr : r.success = false := hf
      simp [handleSubmit, showLoading, hideLoading, manualActionableSpec, hr]

/-- Claim C3, witness: the amended statement at a failing capture and a
success=false manual submission. -/
theorem C3_amended_witness :
    (processCameraCapture ⟨camInit, true, 0, false⟩ "img" none (.error "offline")).2.1 ≠ [] ∧
    (processCameraCapture ⟨camInit, true, 0, false⟩ "img" none
      (.error "offline")).1.arLoadingShown = false ∧
    (handleSubmit manualInit (.ok { success := false })).2 ≠ [] ∧
    ¬ manualActionableSpec (handleSubmit manualInit (.ok { success := false })).1 := by
  have h1 := C3_amended_failure_paths.1 ⟨camInit, true, 0, false⟩ "img" none
    (.error "offline") trivial
  have h2 := C3_amended_failure_paths.2 manualInit (.ok { success := false }) rfl
  exact ⟨h1.1, h1.2.1, h2.1, h2.2.2.2⟩

/-- Claim C5, counterexample: a single image-mode generate click issues two
HTTP requests - the image analysis and then the automatic text-to-video
call built from the first detected topic - not exactly one. -/
theorem C5_counterexample :
    (analyzeImage { inputMode := InputMode.image, selectedImage := some "imgdata" }
        (.ok { success := true, options := some { topics := ["algebra"] } })
        (.ok { success := true })).2 =
      [Request.analyzeEducationalImage "imgdata",
       Request.nlpTextToVideo "Explain algebra based on this educational content"
         "auto" "intermediate" true] ∧
    (analyzeImage { inputMode := InputMode.image, selectedImage := some "imgdata" }
        (.ok { success := true, options := some { topics := ["algebra"] } })
        (.ok { success := true })).2.length ≠ 1 := by
  refine ⟨?_, ?_⟩ <;> decide

/-- Claim C5, amended: no user action ever issues the same request twice -
every action's request list is duplicate-free - and each capture or upload
action issues exactly one request, except the SPA image-mode generate
click, which issues one analysis request and, when the analysis succeeds
with at least one topic, one further distinct generation request. -/
theorem C5_amended_request_counts :
    (∀ ui image_data region net,
        (captureImage ui image_data region net).2.2.length = 1) ∧
    (∀ ui f net, (handleImageUpload ui (some f) net).2.2.length = 1) ∧
    (∀ s net, jsTrim s.inputText ≠ "" →
        (generateVideoFromText s net).2.length = 1) ∧
    (∀ s audio net, s.recordedAudio = some audio →
        (generateVideoFromVoice s net).2.length = 1) ∧
    (∀ s img net1 net2, s.selectedImage = some img →
        1 ≤ (analyzeImage s net1 net2).2.length ∧
        (analyzeImage s net1 net2).2.length ≤ 2 ∧
        (analyzeImage s net1 net2).2.Nodup) := by
  refine ⟨?_, ?_, ?_, ?_, ?_⟩
  · intro ui image_data region net
    cases net with
    | ok r => by_cases hr : r.success = true <;>
        simp [captureImage, processCameraCapture, hr]
    | error m => simp [captureImage, processCameraCapture]
  · intro ui f net
    cases net with
    | ok r => by_cases hr : r.success = true <;>
        simp [handleImageUpload, processImage, hr]
    | error m => simp [handleImageUpload, processImage]
  · intro s net h
    cases net with
    | ok d => by_cases hd : d.success = true <;> simp [generateVideoFromText, h, hd]
    | error m => simp [generateVideoFromText, h]
  · intro s audio net h
    cases net with
    | ok d => by_cases hd : d.success = true <;> simp [generateVideoFromVoice, h, hd]
    | error m => simp [generateVideoFromVoice, h]
  · intro s img net1 net2 h
    cases net1 with
    | ok data =>
      by_cases hc : (data.success = true) ∧
          ((data.options.map ImageOptions.topics).getD []) ≠ [] <;>
        simp [analyzeImage, h, hc, generateVideoFromAnalyzedImage_requests]
    | error m => simp [analyzeImage, h]

/-- Claim C5, witness: the amended statement at concrete actions. -/
theorem C5_amended_witness :
    (captureImage ⟨camInit, false, 0, false⟩ "cap" none
      (.ok { success := true })).2.2.length = 1 ∧
    (handleImageUpload ⟨camInit, false, 0, false⟩ (some "file")
      (.error "down")).2.2.length = 1 ∧
    (generateVideoFromText { inputText := "Gravity" } (.error "down")).2.length = 1 ∧
    (generateVideoFromVoice { recordedAudio := some "blob" }
      (.ok { success := true })).2.length = 1 ∧
    (analyzeImage { selectedImage := some "imgd" }
        (.ok { success := true, options := some { topics := ["optics"] } })
        (.ok { success := true })).2.length ≤ 2 ∧
    (analyzeImage { selectedImage := some "imgd" }
        (.ok { success := true, options := some { topics := ["optics"] } })
        (.ok { success := true })).2.Nodup := by
  have h5 := C5_amended_request_counts.2.2.2.2 { selectedImage := some "imgd" } "imgd"
    (.ok { success := true, options := some { topics := ["optics"] } })
    (.ok { success := true }) rfl
  exact ⟨C5_amended_request_counts.1 ⟨camInit, false, 0, false⟩ "cap" none
      (.ok { success := true }),
    C5_amended_request_counts.2.1 ⟨camInit, false, 0, false⟩ "file" (.error "down"),
    C5_amended_request_counts.2.2.1 { inputText := "Gravity" } (.error "down") (by decide),
    C5_amended_request_counts.2.2.2.1 { recordedAudio := some "blob" } "blob"
      (.ok { success := true }) rfl,
    h5.2.1, h5.2.2⟩

/-- Claim C9: triggering generation with an empty input for the active mode
(blank or whitespace-only text, no recorded audio, no selected image) is a
no-op: the page state is returned unchanged - in particular isGenerating,
generationProgress and result - and no HTTP request is issued. -/
theorem C9_empty_input_noop (s : PageState)
    (netText netVoice : Except String NlpResponse)
    (netImg : Except String ImageAnalysisResponse)
    (netImgGen : Except String NlpResponse)
    (h : (s.inputMode = InputMode.text ∧ jsTrim s.inputText = "") ∨
         (s.inputMode = InputMode.voice ∧ s.recordedAudio = none) ∨
         (s.inputMode = InputMode.image ∧ s.selectedImage = none)) :
    handleGenerate s netText netVoice netImg netImgGen = (s, []) := by
  rcases h with ⟨hm, hv⟩ | ⟨hm, hv⟩ | ⟨hm, hv⟩ <;>
    simp [handleGenerate, hm, hv, generateVideoFromText, generateVideoFromVoice,
      analyzeImage]

/-- Claim C9, witness: the freshly mounted page is in text mode with empty
input, and a generate click changes nothing and issues nothing. -/
theorem C9_witness :
    (({} : PageState).inputMode = InputMode.text ∧ jsTrim ({} : PageState).inputText = "") ∧
    handleGenerate {} (.error "a") (.error "b") (.error "c") (.error "d") = ({}, []) :=
  ⟨⟨rfl, by decide⟩,
    C9_empty_input_noop {} (.error "a") (.error "b") (.error "c") (.error "d")
      (Or.inl ⟨rfl, by decide⟩)⟩

theorem audioRun_dataAvail (cs : List Chunk) (s : AudioState)
    (hr : s.hasRecorder = true) :
    audioRun s (cs.map AudioEvent.dataAvail) =
      { s with audioChunks := s.audioChunks ++ cs.filter fun c => decide (0 < c.size) } := by
  induction cs generalizing s with
  | nil => simp [audioRun]
  | cons c cs ih =>
    simp only [List.map_cons, audioRun, List.foldl_cons]
    by_cases hc : 0 < c.size
    · have hstep : audioStep s (AudioEvent.dataAvail c) =
          { s with audioChunks := s.audioChunks ++ [c] } := by
        simp [audioStep, hr, hc]
      rw [hstep]
      have := ih { s with audioChunks := s.audioChunks ++ [c] } (by simpa using hr)
      rw [audioRun] at this
      rw [this]
      simp [List.filter_cons, hc]
    · have hstep : audioStep s (AudioEvent.dataAvail c) = s := by
        simp [audioStep, hc]
      rw [hstep]
      have := ih s hr
      rw [audioRun] at this
      rw [this]
      simp [List.filter_cons, hc]

/-- Claim C8: a completed recording in the enhanced audio helper - a
startRecording, the dataavailable deliveries, a stopRecording and the
firing of its onstop - invokes the registered completion callback exactly
once (exactly one entry is appended to the invocation log), with a blob
built from exactly the positive-size chunks delivered since that
startRecording; the accumulator is reset at start, so earlier chunks never
leak into the blob. -/
theorem C8_recording_callback (s : AudioState) (cs : List Chunk)
    (hcb : s.callbackRegistered = true) :
    (audioRun s ([AudioEvent.startRec] ++ cs.map AudioEvent.dataAvail ++
        [AudioEvent.stopRec, AudioEvent.fireOnStop])).callbackLog =
      s.callbackLog ++ [cs.filter fun c => decide (0 < c.size)] := by
  have hsplit : audioRun s ([AudioEvent.startRec] ++ cs.map AudioEvent.dataAvail ++
      [AudioEvent.stopRec, AudioEvent.fireOnStop]) =
      audioRun (audioRun (audioRun s [AudioEvent.startRec]) (cs.map AudioEvent.dataAvail))
        [AudioEvent.stopRec, AudioEvent.fireOnStop] := by
    simp [audioRun, List.foldl_append]
  have hstart : audioRun s [AudioEvent.startRec] =
      { s with hasRecorder := true, isRecording := true, audioChunks := [] } := rfl
  rw [hsplit, hstart, audioRun_dataAvail cs _ rfl]
  simp [audioRun, audioStep, hcb]

/-- Claim C8, witness: a recording of one non-empty and one empty chunk,
started with a stale chunk in the accumulator, invokes the callback once
with exactly the new non-empty chunk. -/
theorem C8_witness :
    ({ hasRecorder := false, isRecording := false, audioChunks := [⟨9, 3⟩],
       callbackRegistered := true, pendingStops := 0,
       callbackLog := [] } : AudioState).callbackRegistered = true ∧
    (audioRun (⟨false, false, [⟨9, 3⟩], true, 0, []⟩ : AudioState)
      ([AudioEvent.startRec] ++ [⟨1, 5⟩, ⟨2, 0⟩].map AudioEvent.dataAvail ++
        [AudioEvent.stopRec, AudioEvent.fireOnStop])).callbackLog =
      [] ++ [[⟨1, 5⟩, ⟨2, 0⟩].filter fun c => decide (0 < c.size)] :=
  ⟨rfl, C8_recording_callback _ _ rfl⟩

end Pragyan
